import Mathlib

/-!
Shallow embedding of the Voyage-AI travel-planning backend
(`backend/app`): the mock catalog (`services/mock_data.py`), the
selection parsers and budget allocators of the four planning strategies
(`agents/single_agent.py`, `agents/multi_agent_orchestrator.py`,
`agents/strands_orchestrator.py`, `agents/ap2_orchestrator.py`).
Text is modelled as Lean `String` (a packed `List Char`); Python float
arithmetic is modelled exactly over `ℚ`; Python `None` becomes `Option`.
The hybrid data service ships with no cache file, so every strategy's
catalog calls resolve to the `mock_data` functions embedded here.
-/

/-- Python `str.lower()` (character-wise ASCII lowering). -/
def lowerStr (s : String) : String := ⟨s.data.map Char.toLower⟩

/-- `startsWithL pat s` holds when `pat` is an initial segment of `s`. -/
def startsWithL : List Char → List Char → Bool
  | [], _ => true
  | _ :: _, [] => false
  | a :: as, b :: bs => a == b && startsWithL as bs

/-- Occurrence of `pat` as a contiguous substring of `s` (Python `pat in s`). -/
def containsSubL (pat : List Char) : List Char → Bool
  | [] => startsWithL pat []
  | c :: rest => startsWithL pat (c :: rest) || containsSubL pat rest

/-- Python `pat in s` on strings. -/
def substrOf (pat s : String) : Bool := containsSubL pat.data s.data

/-- Python `str.strip()` on a character list (drop leading and trailing whitespace). -/
def stripL (l : List Char) : List Char :=
  ((l.dropWhile Char.isWhitespace).reverse.dropWhile Char.isWhitespace).reverse

/-- The catalog key of a destination string:
`destination.lower().split(",")[0].strip()`. -/
def destKey (destination : String) : String :=
  ⟨stripL ((lowerStr destination).data.takeWhile (fun c => !(c == ',')))⟩

/-- Python `dict.get(k, dflt)` over an association list. -/
def dictGetD {α : Type} (m : List (String × α)) (k : String) (dflt : α) : α :=
  ((m.find? (fun kv => kv.1 == k)).map Prod.snd).getD dflt

/-! ## Data model (`models/responses.py`) -/

structure FlightOption where
  airline : String
  departure_time : String
  arrival_time : String
  duration : String
  price : ℚ
  stops : ℕ
deriving DecidableEq

structure HotelOption where
  name : String
  location : String
  price_per_night : ℚ
  total_price : ℚ
  rating : ℚ
  amenities : List String
deriving DecidableEq

structure ActivityOption where
  name : String
  description : String
  cost : ℚ
  duration : String
  category : String
deriving DecidableEq

/-- The five fixed keys of the `cost_breakdown` dict. -/
structure CostBreakdown where
  flights : ℚ
  accommodation : ℚ
  activities : ℚ
  food : ℚ
  misc : ℚ
deriving DecidableEq

structure TravelItinerary where
  destination : String
  duration_days : ℕ
  total_budget : ℚ
  actual_cost : ℚ
  within_budget : Bool
  flights : Option FlightOption
  hotel : Option HotelOption
  activities : List ActivityOption
  cost_breakdown : CostBreakdown
deriving DecidableEq

inductive AgentStatus where
  | success
  | failure
  | partialSuccess
  | error
deriving DecidableEq

/-! ## Mock catalog (`services/mock_data.py`) -/

namespace mock_data

def tokyo_flights : List FlightOption :=
  [ { airline := "Japan Airlines", departure_time := "2025-02-01 10:00",
      arrival_time := "2025-02-01 14:30", duration := "11h 30m", price := 650, stops := 0 },
    { airline := "ANA", departure_time := "2025-02-01 14:00",
      arrival_time := "2025-02-01 18:00", duration := "10h 00m", price := 720, stops := 0 },
    { airline := "United Airlines", departure_time := "2025-02-01 08:00",
      arrival_time := "2025-02-01 15:00", duration := "13h 00m", price := 580, stops := 1 },
    { airline := "Premium Business Class - ANA", departure_time := "2025-02-01 09:00",
      arrival_time := "2025-02-01 13:00", duration := "10h 00m", price := 1250, stops := 0 } ]

def paris_flights : List FlightOption :=
  [ { airline := "Air France", departure_time := "2025-02-01 18:00",
      arrival_time := "2025-02-02 08:00", duration := "8h 00m", price := 450, stops := 0 } ]

def london_flights : List FlightOption :=
  [ { airline := "British Airways", departure_time := "2025-02-01 16:00",
      arrival_time := "2025-02-02 06:00", duration := "7h 00m", price := 380, stops := 0 } ]

def MOCK_FLIGHTS : List (String × List FlightOption) :=
  [("tokyo", tokyo_flights), ("paris", paris_flights), ("london", london_flights)]

def tokyo_hotels : List HotelOption :=
  [ { name := "Shibuya Grand Hotel", location := "Shibuya, Tokyo", price_per_night := 120,
      total_price := 0, rating := 4.2, amenities := ["WiFi", "Breakfast", "Gym", "City View"] },
    { name := "Shinjuku Budget Inn", location := "Shinjuku, Tokyo", price_per_night := 85,
      total_price := 0, rating := 3.8, amenities := ["WiFi", "24/7 Desk"] },
    { name := "Tokyo Luxury Suites", location := "Ginza, Tokyo", price_per_night := 250,
      total_price := 0, rating := 4.8,
      amenities := ["WiFi", "Breakfast", "Spa", "Pool", "Concierge"] },
    { name := "Asakusa Traditional Ryokan", location := "Asakusa, Tokyo", price_per_night := 150,
      total_price := 0, rating := 4.5,
      amenities := ["WiFi", "Traditional Breakfast", "Onsen", "Tea Ceremony"] },
    { name := "Imperial Suite - Ritz-Carlton Tokyo", location := "Roppongi, Tokyo",
      price_per_night := 450, total_price := 0, rating := 5,
      amenities := ["WiFi", "Butler Service", "Spa", "Michelin Restaurant",
                    "Panoramic Views", "Private Lounge"] } ]

def paris_hotels : List HotelOption :=
  [ { name := "Eiffel View Hotel", location := "7th Arrondissement, Paris",
      price_per_night := 180, total_price := 0, rating := 4.5,
      amenities := ["WiFi", "Breakfast", "Eiffel Tower View"] } ]

def london_hotels : List HotelOption :=
  [ { name := "Westminster Inn", location := "Westminster, London", price_per_night := 150,
      total_price := 0, rating := 4.3,
      amenities := ["WiFi", "Breakfast", "Central Location"] } ]

def MOCK_HOTELS : List (String × List HotelOption) :=
  [("tokyo", tokyo_hotels), ("paris", paris_hotels), ("london", london_hotels)]

def tokyo_activities : List (String × List ActivityOption) :=
  [ ("tech",
     [ { name := "Akihabara Tech District Tour",
         description := "Explore Tokyo\x27s electronics and anime paradise",
         cost := 30, duration := "3 hours", category := "tech" },
       { name := "TeamLab Borderless Digital Art Museum",
         description := "Immersive digital art experience",
         cost := 35, duration := "2 hours", category := "tech" },
       { name := "Sony ExploraScience",
         description := "Interactive technology exhibition",
         cost := 25, duration := "2 hours", category := "tech" } ]),
    ("food",
     [ { name := "Tsukiji Outer Market Food Tour",
         description := "Fresh sushi and street food experience",
         cost := 50, duration := "3 hours", category := "food" },
       { name := "Ramen Making Class",
         description := "Learn to make authentic Japanese ramen",
         cost := 65, duration := "2.5 hours", category := "food" },
       { name := "Sushi Masterclass at Toyosu Market",
         description := "Professional sushi making experience",
         cost := 80, duration := "3 hours", category := "food" },
       { name := "Private Michelin Star Chef Experience",
         description := "Exclusive dining with 3-star Michelin chef",
         cost := 250, duration := "4 hours", category := "food" } ]),
    ("temples",
     [ { name := "Senso-ji Temple Visit",
         description := "Tokyo\x27s oldest Buddhist temple in Asakusa",
         cost := 0, duration := "2 hours", category := "temples" },
       { name := "Meiji Shrine Experience",
         description := "Peaceful Shinto shrine in forest setting",
         cost := 0, duration := "1.5 hours", category := "temples" },
       { name := "Guided Temple Tour (Senso-ji + Meiji + Yasukuni)",
         description := "Comprehensive temple tour with expert guide",
         cost := 45, duration := "5 hours", category := "temples" } ]),
    ("nature",
     [ { name := "Mount Fuji Day Trip",
         description := "Scenic tour to Japan\x27s iconic mountain",
         cost := 120, duration := "10 hours", category := "nature" },
       { name := "Shinjuku Gyoen National Garden",
         description := "Beautiful traditional Japanese garden",
         cost := 5, duration := "2 hours", category := "nature" } ]),
    ("sightseeing",
     [ { name := "Tokyo Skytree Observation Deck",
         description := "Panoramic views from tallest tower",
         cost := 28, duration := "1.5 hours", category := "sightseeing" },
       { name := "Shibuya Crossing & Harajuku Walking Tour",
         description := "Experience Tokyo\x27s most vibrant districts",
         cost := 20, duration := "3 hours", category := "sightseeing" },
       { name := "Imperial Palace East Gardens",
         description := "Historic palace grounds and gardens",
         cost := 0, duration := "2 hours", category := "sightseeing" } ]) ]

def paris_activities : List (String × List ActivityOption) :=
  [ ("sightseeing",
     [ { name := "Eiffel Tower Visit", description := "Iconic Parisian landmark",
         cost := 30, duration := "2 hours", category := "sightseeing" } ]) ]

def london_activities : List (String × List ActivityOption) :=
  [ ("sightseeing",
     [ { name := "Big Ben & Westminster Abbey", description := "Historic London landmarks",
         cost := 25, duration := "3 hours", category := "sightseeing" } ]) ]

def MOCK_ACTIVITIES : List (String × List (String × List ActivityOption)) :=
  [("tokyo", tokyo_activities), ("paris", paris_activities), ("london", london_activities)]

/-- `sorted(l, key=lambda x: key x)`: Python sorting is stable, as is
insertion sort with a total preorder, so the two agree. -/
def sortedByKey {α : Type} (key : α → ℚ) (l : List α) : List α :=
  List.insertionSort (fun a b => key a ≤ key b) l

/-- `sorted(l, key=lambda x: key x, reverse=True)` (stable descending sort). -/
def sortedByKeyRev {α : Type} (key : α → ℚ) (l : List α) : List α :=
  List.insertionSort (fun a b => key b ≤ key a) l

/-- `mock_data.get_flights`. -/
def get_flights (destination : String) (budget_preference : String) : List FlightOption :=
  let dest_key := destKey destination
  let flights := dictGetD MOCK_FLIGHTS dest_key tokyo_flights
  if budget_preference == "budget" then
    (sortedByKey (fun f => f.price) flights).take 2
  else if budget_preference == "luxury" then
    (sortedByKeyRev (fun f => f.price) flights).take 2
  else
    flights

/-- `mock_data.get_hotels` (the in-place `total_price` update becomes a map). -/
def get_hotels (destination : String) (nights : ℕ) (budget_preference : String) :
    List HotelOption :=
  let dest_key := destKey destination
  let hotels := dictGetD MOCK_HOTELS dest_key tokyo_hotels
  let hotels := hotels.map (fun h => { h with total_price := h.price_per_night * nights })
  if budget_preference == "budget" then
    (sortedByKey (fun h => h.price_per_night) hotels).take 2
  else if budget_preference == "luxury" then
    (sortedByKeyRev (fun h => h.price_per_night) hotels).take 2
  else
    (((sortedByKey (fun h => h.price_per_night) hotels).drop 1).take 2)

/-- `mock_data.get_activities`. -/
def get_activities (destination : String) (interests : List String) (max_count : ℕ) :
    List ActivityOption :=
  let dest_key := destKey destination
  let activities_db := dictGetD MOCK_ACTIVITIES dest_key tokyo_activities
  let selected_activities := interests.foldl
    (fun acc interest => acc ++ (dictGetD activities_db (lowerStr interest) []).take 2) []
  selected_activities.take max_count

/-- `mock_data.calculate_daily_food_budget`. -/
def calculate_daily_food_budget (duration_days : ℕ) (budget_level : String) : ℚ :=
  let daily_rate : ℚ :=
    if budget_level == "budget" then 30
    else if budget_level == "mid-range" then 60
    else if budget_level == "luxury" then 120
    else 60
  daily_rate * duration_days

/-- `mock_data.calculate_misc_costs`. -/
def calculate_misc_costs (duration_days : ℕ) : ℚ := duration_days * 25

/-- The flight list `get_flights` starts from (dict lookup with tokyo default). -/
def flights_db (destination : String) : List FlightOption :=
  dictGetD MOCK_FLIGHTS (destKey destination) tokyo_flights

/-- The hotel list `get_hotels` starts from, with `total_price` recomputed. -/
def hotels_db (destination : String) (nights : ℕ) : List HotelOption :=
  (dictGetD MOCK_HOTELS (destKey destination) tokyo_hotels).map
    (fun h => { h with total_price := h.price_per_night * nights })

end mock_data

/-! ## Stage 2 specialist-router strategy (`agents/multi_agent_orchestrator.py`) -/

namespace MultiAgentOrchestrator

/-- `_parse_flight_from_response`: first candidate whose lower-cased airline
occurs in the lower-cased response; else `flights[0] if flights else None`. -/
def parse_flight_from_response (response : String) (flights : List FlightOption) :
    Option FlightOption :=
  let response_lower := lowerStr response
  match flights.find? (fun flight => substrOf (lowerStr flight.airline) response_lower) with
  | some flight => some flight
  | none => flights.head?

/-- `_parse_hotel_from_response`. -/
def parse_hotel_from_response (response : String) (hotels : List HotelOption) :
    Option HotelOption :=
  let response_lower := lowerStr response
  match hotels.find? (fun hotel => substrOf (lowerStr hotel.name) response_lower) with
  | some hotel => some hotel
  | none => hotels.head?

/-- `_parse_activities_from_response`: collect matching candidates in order,
stopping after the sixth match; if none matched, the first six candidates. -/
def parse_activities_from_response (response : String) (activities : List ActivityOption) :
    List ActivityOption :=
  let response_lower := lowerStr response
  let selected :=
    (activities.filter (fun activity => substrOf (lowerStr activity.name) response_lower)).take 6
  if selected.isEmpty then activities.take 6 else selected

/-- Cost aggregation shared by both `plan_trip` variants (lines 294-296 and
590-592): per-traveler flight and activity scaling, hotel total as-is. -/
def flight_cost_of (selected_flight : Option FlightOption) (travelers : ℚ) : ℚ :=
  match selected_flight with
  | some f => f.price * travelers
  | none => 0

def hotel_cost_of (selected_hotel : Option HotelOption) : ℚ :=
  match selected_hotel with
  | some h => h.total_price
  | none => 0

def activities_cost_of (selected_activities : List ActivityOption) (travelers : ℚ) : ℚ :=
  (selected_activities.map (fun a => a.cost)).sum * travelers

/-- `MultiAgentOrchestrator.plan_trip`, lines 293-363: percentage fallback when
`remaining ≤ 0`, and itinerary assembly. -/
def plan_trip_itinerary (destination : String) (duration_days : ℕ) (budget travelers : ℚ)
    (selected_flight : Option FlightOption) (selected_hotel : Option HotelOption)
    (selected_activities : List ActivityOption) : TravelItinerary :=
  let flight_cost := flight_cost_of selected_flight travelers
  let hotel_cost := hotel_cost_of selected_hotel
  let activities_cost := activities_cost_of selected_activities travelers
  let remaining := budget - (flight_cost + hotel_cost + activities_cost)
  let food_cost := if remaining > 0 then remaining * 0.60 else budget * 0.15
  let misc_cost := if remaining > 0 then remaining * 0.40 else budget * 0.10
  let total_cost := flight_cost + hotel_cost + activities_cost + food_cost + misc_cost
  { destination := destination, duration_days := duration_days, total_budget := budget,
    actual_cost := total_cost, within_budget := decide (total_cost ≤ budget),
    flights := selected_flight, hotel := selected_hotel, activities := selected_activities,
    cost_breakdown :=
      { flights := flight_cost, accommodation := hotel_cost, activities := activities_cost,
        food := food_cost, misc := misc_cost } }

/-- `MultiAgentOrchestrator.plan_trip_stream`, lines 589-632: the streaming
path applies the 60/40 split with no fallback branch. -/
def plan_trip_stream_itinerary (destination : String) (duration_days : ℕ)
    (budget travelers : ℚ) (selected_flight : Option FlightOption)
    (selected_hotel : Option HotelOption) (selected_activities : List ActivityOption) :
    TravelItinerary :=
  let flight_cost := flight_cost_of selected_flight travelers
  let hotel_cost := hotel_cost_of selected_hotel
  let activities_cost := activities_cost_of selected_activities travelers
  let remaining := budget - (flight_cost + hotel_cost + activities_cost)
  let food_cost := remaining * 0.60
  let misc_cost := remaining * 0.40
  let total_cost := flight_cost + hotel_cost + activities_cost + food_cost + misc_cost
  { destination := destination, duration_days := duration_days, total_budget := budget,
    actual_cost := total_cost, within_budget := decide (total_cost ≤ budget),
    flights := selected_flight, hotel := selected_hotel, activities := selected_activities,
    cost_breakdown :=
      { flights := flight_cost, accommodation := hotel_cost, activities := activities_cost,
        food := food_cost, misc := misc_cost } }

end MultiAgentOrchestrator

/-! ## Stage 3 tool-based strategy (`agents/strands_orchestrator.py`) -/

namespace StrandsOrchestrator

/-- Result record of the `calculate_budget_breakdown` tool (the JSON object it
returns). -/
structure BudgetBreakdown where
  flights : ℚ
  accommodation : ℚ
  activities : ℚ
  food : ℚ
  misc : ℚ
  total_cost : ℚ
  within_budget : Bool
deriving DecidableEq

/-- The `calculate_budget_breakdown` tool, lines 201-236: unconditional 60/40
split of `remaining`, even when it is negative. -/
def calculate_budget_breakdown (total_budget flight_cost hotel_cost activities_cost : ℚ) :
    BudgetBreakdown :=
  let remaining := total_budget - (flight_cost + hotel_cost + activities_cost)
  let food_cost := remaining * 0.60
  let misc_cost := remaining * 0.40
  let total_cost := flight_cost + hotel_cost + activities_cost + food_cost + misc_cost
  { flights := flight_cost, accommodation := hotel_cost, activities := activities_cost,
    food := food_cost, misc := misc_cost, total_cost := total_cost,
    within_budget := decide (total_cost ≤ total_budget) }

/-- `StrandsOrchestrator.plan_trip_stream`, lines 379-422: same unconditional
60/40 arithmetic, then itinerary assembly. -/
def plan_trip_stream_itinerary (destination : String) (duration_days : ℕ)
    (budget travelers : ℚ) (selected_flight : Option FlightOption)
    (selected_hotel : Option HotelOption) (selected_activities : List ActivityOption) :
    TravelItinerary :=
  let flight_cost := MultiAgentOrchestrator.flight_cost_of selected_flight travelers
  let hotel_cost := MultiAgentOrchestrator.hotel_cost_of selected_hotel
  let activities_cost := MultiAgentOrchestrator.activities_cost_of selected_activities travelers
  let remaining := budget - (flight_cost + hotel_cost + activities_cost)
  let food_cost := remaining * 0.60
  let misc_cost := remaining * 0.40
  let total_cost := flight_cost + hotel_cost + activities_cost + food_cost + misc_cost
  { destination := destination, duration_days := duration_days, total_budget := budget,
    actual_cost := total_cost, within_budget := decide (total_cost ≤ budget),
    flights := selected_flight, hotel := selected_hotel, activities := selected_activities,
    cost_breakdown :=
      { flights := flight_cost, accommodation := hotel_cost, activities := activities_cost,
        food := food_cost, misc := misc_cost } }

end StrandsOrchestrator

/-! ## Stage 1 monolithic strategy (`agents/single_agent.py`) -/

namespace SingleTravelAgent

/-- `SingleTravelAgent._parse_agent_response`, lines 207-232: food from the
daily-rate helper, misc from the flat per-day helper, no dependence on the
remaining budget; the itinerary lists only the first five activities while the
cost covers all of them. -/
def parse_agent_response_itinerary (destination : String) (duration_days : ℕ)
    (budget travelers : ℚ) (hotel_preference : String)
    (selected_flight : Option FlightOption) (selected_hotel : Option HotelOption)
    (activities : List ActivityOption) : TravelItinerary :=
  let flight_cost := MultiAgentOrchestrator.flight_cost_of selected_flight travelers
  let hotel_cost := MultiAgentOrchestrator.hotel_cost_of selected_hotel
  let activities_cost := MultiAgentOrchestrator.activities_cost_of activities travelers
  let food_cost := mock_data.calculate_daily_food_budget duration_days hotel_preference
  let misc_cost := mock_data.calculate_misc_costs duration_days
  let total_cost := flight_cost + hotel_cost + activities_cost + food_cost + misc_cost
  { destination := destination, duration_days := duration_days, total_budget := budget,
    actual_cost := total_cost, within_budget := decide (total_cost ≤ budget),
    flights := selected_flight, hotel := selected_hotel, activities := activities.take 5,
    cost_breakdown :=
      { flights := flight_cost, accommodation := hotel_cost, activities := activities_cost,
        food := food_cost, misc := misc_cost } }

/-- Tags for the messages `plan_trip` appends to `errors` / `warnings`. -/
inductive Issue where
  | budget_exceeded
  | no_flights
  | no_hotel
  | no_activities
deriving DecidableEq

structure PlanTripOutcome where
  status : AgentStatus
  errors : List Issue
  warnings : List Issue
deriving DecidableEq

/-- `SingleTravelAgent.plan_trip`, lines 69-96: a budget overrun is appended to
`errors`, and any error forces `status = FAILURE`. -/
def plan_trip_outcome (itinerary : TravelItinerary) : PlanTripOutcome :=
  let exceeded_budget := decide (itinerary.actual_cost > itinerary.total_budget)
  let errors : List Issue :=
    (if exceeded_budget then [Issue.budget_exceeded] else [])
      ++ (if itinerary.flights.isNone then [Issue.no_flights] else [])
      ++ (if itinerary.hotel.isNone then [Issue.no_hotel] else [])
  let warnings : List Issue :=
    if itinerary.activities.length = 0 then [Issue.no_activities] else []
  let status :=
    if errors ≠ [] then AgentStatus.failure
    else if warnings ≠ [] then AgentStatus.partialSuccess
    else AgentStatus.success
  { status := status, errors := errors, warnings := warnings }

end SingleTravelAgent

/-! ## Stage 4 mandate-based strategy (`agents/ap2_orchestrator.py`) -/

namespace AP2Orchestrator

inductive MandateStatus where
  | pending
  | authorized
  | denied
  | executed
  | failed
deriving DecidableEq

/-- `_build_cart_mandate`, lines 186-251: the cart total of a request. -/
def build_cart_total (budget : ℚ) : ℚ :=
  let flight_price := budget * 0.35
  let hotel_price := budget * 0.30
  let activities_price := budget * 0.20
  let subtotal := flight_price + hotel_price + activities_price
  let taxes := subtotal * 0.08
  let fees : ℚ := 25
  subtotal + taxes + fees

/-- `_request_payment_authorization`, lines 253-294: authorized iff the cart
total fits the running mock wallet balance. -/
def request_payment_authorization (cart_total mock_wallet_balance : ℚ) : MandateStatus :=
  if cart_total ≤ mock_wallet_balance then MandateStatus.authorized else MandateStatus.denied

inductive EventKind where
  | log
  | result
  | error
deriving DecidableEq

/-- `plan_trip_with_ap2_stream`, lines 345-445: the event kinds emitted and the
final wallet balance.  Four log events precede the authorization decision
(header, intent, cart, mandate); a denial yields one terminal error event and
returns, so `_execute_transaction` (which emits two more logs, debits the
wallet and yields the result) never runs. -/
def plan_trip_with_ap2_stream (budget mock_wallet_balance : ℚ) :
    List EventKind × ℚ :=
  let total := build_cart_total budget
  let mandate_status := request_payment_authorization total mock_wallet_balance
  let header_logs : List EventKind := [EventKind.log, EventKind.log, EventKind.log, EventKind.log]
  if mandate_status ≠ MandateStatus.authorized then
    (header_logs ++ [EventKind.error], mock_wallet_balance)
  else
    (header_logs ++ [EventKind.log, EventKind.log, EventKind.result],
     mock_wallet_balance - total)

end AP2Orchestrator

/-- A fixture flight used by concrete witnesses: one traveler at price 200. -/
def sampleFlight : FlightOption :=
  { airline := "TestAir", departure_time := "", arrival_time := "", duration := "",
    price := 200, stops := 0 }

/-- Fixture hotel and activity for concrete witnesses. -/
def sampleHotel : HotelOption :=
  { name := "Test Hotel", location := "Testville", price_per_night := 100,
    total_price := 300, rating := 4, amenities := ["WiFi"] }

def sampleActivity : ActivityOption :=
  { name := "Test Walk", description := "A walk", cost := 10, duration := "1 hour",
    category := "sightseeing" }

/-! ## Theorems -/

open MultiAgentOrchestrator SingleTravelAgent AP2Orchestrator

/-- Claim C3: in every strategy's itinerary or budget-tool output,
`within_budget` is true exactly when `actual_cost ≤ total_budget`; the
comparison is non-strict, so equality yields `true`. -/
theorem within_budget_nonstrict_all_strategies :
    (∀ (d : String) (days : ℕ) (B t : ℚ) sf sh sa,
      ((plan_trip_itinerary d days B t sf sh sa).within_budget = true ↔
        (plan_trip_itinerary d days B t sf sh sa).actual_cost ≤
          (plan_trip_itinerary d days B t sf sh sa).total_budget)) ∧
    (∀ (d : String) (days : ℕ) (B t : ℚ) sf sh sa,
      ((plan_trip_stream_itinerary d days B t sf sh sa).within_budget = true ↔
        (plan_trip_stream_itinerary d days B t sf sh sa).actual_cost ≤
          (plan_trip_stream_itinerary d days B t sf sh sa).total_budget)) ∧
    (∀ (d : String) (days : ℕ) (B t : ℚ) sf sh sa,
      ((StrandsOrchestrator.plan_trip_stream_itinerary d days B t sf sh sa).within_budget = true ↔
        (StrandsOrchestrator.plan_trip_stream_itinerary d days B t sf sh sa).actual_cost ≤
          (StrandsOrchestrator.plan_trip_stream_itinerary d days B t sf sh sa).total_budget)) ∧
    (∀ (B F H A : ℚ),
      ((StrandsOrchestrator.calculate_budget_breakdown B F H A).within_budget = true ↔
        (StrandsOrchestrator.calculate_budget_breakdown B F H A).total_cost ≤ B)) ∧
    (∀ (d : String) (days : ℕ) (B t : ℚ) (pref : String) sf sh sa,
      ((parse_agent_response_itinerary d days B t pref sf sh sa).within_budget = true ↔
        (parse_agent_response_itinerary d days B t pref sf sh sa).actual_cost ≤
          (parse_agent_response_itinerary d days B t pref sf sh sa).total_budget)) := by
  refine ⟨?_, ?_, ?_, ?_, ?_⟩
  · intro d days B t sf sh sa
    simp [plan_trip_itinerary]
  · intro d days B t sf sh sa
    simp [plan_trip_stream_itinerary]
  · intro d days B t sf sh sa
    simp [StrandsOrchestrator.plan_trip_stream_itinerary]
  · intro B F H A
    simp [StrandsOrchestrator.calculate_budget_breakdown]
  · intro d days B t pref sf sh sa
    simp [parse_agent_response_itinerary]

/-- Witness for C3 at a concrete call. -/
theorem within_budget_nonstrict_all_strategies_witness :
    ((plan_trip_itinerary "Tokyo, Japan" 5 3000 2 none none []).within_budget = true ↔
      (plan_trip_itinerary "Tokyo, Japan" 5 3000 2 none none []).actual_cost ≤
        (plan_trip_itinerary "Tokyo, Japan" 5 3000 2 none none []).total_budget) :=
  within_budget_nonstrict_all_strategies.1 "Tokyo, Japan" 5 3000 2 none none []

/-- Claim C10: in the 60/40 split mode, a strictly positive remaining budget is
split so that `food + misc = remaining`, hence `actual_cost` equals the budget
exactly (never strictly under it) and `within_budget` is true; this covers the
specialist `plan_trip` allocation and the tool-strategy streaming assembly. -/
theorem positive_remaining_sixty_forty_consumes_budget (d : String) (days : ℕ)
    (B t : ℚ) (sf : Option FlightOption) (sh : Option HotelOption)
    (sa : List ActivityOption)
    (hrem : 0 < B - (flight_cost_of sf t + hotel_cost_of sh + activities_cost_of sa t)) :
    ((plan_trip_itinerary d days B t sf sh sa).cost_breakdown.food +
        (plan_trip_itinerary d days B t sf sh sa).cost_breakdown.misc =
      B - (flight_cost_of sf t + hotel_cost_of sh + activities_cost_of sa t) ∧
    (plan_trip_itinerary d days B t sf sh sa).actual_cost = B ∧
    (plan_trip_itinerary d days B t sf sh sa).within_budget = true ∧
    ¬ (plan_trip_itinerary d days B t sf sh sa).actual_cost < B) ∧
    ((StrandsOrchestrator.plan_trip_stream_itinerary d days B t sf sh sa).cost_breakdown.food +
        (StrandsOrchestrator.plan_trip_stream_itinerary d days B t sf sh sa).cost_breakdown.misc =
      B - (flight_cost_of sf t + hotel_cost_of sh + activities_cost_of sa t) ∧
    (StrandsOrchestrator.plan_trip_stream_itinerary d days B t sf sh sa).actual_cost = B ∧
    (StrandsOrchestrator.plan_trip_stream_itinerary d days B t sf sh sa).within_budget = true ∧
    ¬ (StrandsOrchestrator.plan_trip_stream_itinerary d days B t sf sh sa).actual_cost < B) := by
  set F := flight_cost_of sf t
  set H := hotel_cost_of sh
  set A := activities_cost_of sa t
  constructor
  · simp only [plan_trip_itinerary, if_pos hrem]
    refine ⟨by ring, by ring, ?_, ?_⟩
    · simp only [decide_eq_true_eq]
      ring_nf
      linarith
    · simp only [not_lt]
      ring_nf
      linarith
  · simp only [StrandsOrchestrator.plan_trip_stream_itinerary]
    refine ⟨by ring, by ring, ?_, ?_⟩
    · simp only [decide_eq_true_eq]
      ring_nf
      linarith
    · simp only [not_lt]
      ring_nf
      linarith

/-- Witness for C10 at a concrete call with positive remaining budget. -/
theorem positive_remaining_sixty_forty_consumes_budget_witness :
    (plan_trip_itinerary "Tokyo, Japan" 5 1000 2 none none []).actual_cost = 1000 ∧
    (plan_trip_itinerary "Tokyo, Japan" 5 1000 2 none none []).within_budget = true :=
  ⟨(positive_remaining_sixty_forty_consumes_budget "Tokyo, Japan" 5 1000 2 none none []
      (by norm_num [MultiAgentOrchestrator.flight_cost_of, MultiAgentOrchestrator.hotel_cost_of,
        MultiAgentOrchestrator.activities_cost_of])).1.2.1,
   (positive_remaining_sixty_forty_consumes_budget "Tokyo, Japan" 5 1000 2 none none []
      (by norm_num [MultiAgentOrchestrator.flight_cost_of, MultiAgentOrchestrator.hotel_cost_of,
        MultiAgentOrchestrator.activities_cost_of])).1.2.2.1⟩

/-- Claim C1 fails as stated: at the tool-strategy budget call with budget 100
and flight cost 200 the remaining budget is negative, yet food and misc are
negative and `within_budget` is true. -/
theorem negative_remaining_policy_counterexample :
    (100 : ℚ) - (200 + 0 + 0) < 0 ∧
    (StrandsOrchestrator.calculate_budget_breakdown 100 200 0 0).food < 0 ∧
    (StrandsOrchestrator.calculate_budget_breakdown 100 200 0 0).misc < 0 ∧
    (StrandsOrchestrator.calculate_budget_breakdown 100 200 0 0).within_budget = true := by
  refine ⟨by norm_num, ?_, ?_, ?_⟩ <;>
    simp [StrandsOrchestrator.calculate_budget_breakdown] <;> norm_num

/-- Claim C1 (amended): with a positive budget and negative remaining budget,
the percentage-fallback allocation of the specialist `plan_trip` and the
monolithic daily-rate allocation return non-negative food and misc and
`within_budget = false`; but the specialist streaming path and the tool
strategy's budget tool apply the raw 60/40 split, returning negative food and
misc with `within_budget = true`. -/
theorem negative_remaining_modes_amended (d : String) (days : ℕ) (B t : ℚ)
    (pref : String) (sf : Option FlightOption) (sh : Option HotelOption)
    (sa : List ActivityOption) (hB : 0 < B)
    (hrem : B - (flight_cost_of sf t + hotel_cost_of sh + activities_cost_of sa t) < 0) :
    (0 ≤ (plan_trip_itinerary d days B t sf sh sa).cost_breakdown.food ∧
     0 ≤ (plan_trip_itinerary d days B t sf sh sa).cost_breakdown.misc ∧
     (plan_trip_itinerary d days B t sf sh sa).within_budget = false) ∧
    (0 ≤ (parse_agent_response_itinerary d days B t pref sf sh sa).cost_breakdown.food ∧
     0 ≤ (parse_agent_response_itinerary d days B t pref sf sh sa).cost_breakdown.misc ∧
     (parse_agent_response_itinerary d days B t pref sf sh sa).within_budget = false) ∧
    ((plan_trip_stream_itinerary d days B t sf sh sa).cost_breakdown.food < 0 ∧
     (plan_trip_stream_itinerary d days B t sf sh sa).cost_breakdown.misc < 0 ∧
     (plan_trip_stream_itinerary d days B t sf sh sa).within_budget = true) ∧
    ((StrandsOrchestrator.calculate_budget_breakdown B (flight_cost_of sf t)
        (hotel_cost_of sh) (activities_cost_of sa t)).food < 0 ∧
     (StrandsOrchestrator.calculate_budget_breakdown B (flight_cost_of sf t)
        (hotel_cost_of sh) (activities_cost_of sa t)).misc < 0 ∧
     (StrandsOrchestrator.calculate_budget_breakdown B (flight_cost_of sf t)
        (hotel_cost_of sh) (activities_cost_of sa t)).within_budget = true) := by
  set F := flight_cost_of sf t
  set H := hotel_cost_of sh
  set A := activities_cost_of sa t
  have hnp : ¬ (0 < B - (F + H + A)) := not_lt.mpr (le_of_lt hrem)
  have hfood : (0:ℚ) ≤ mock_data.calculate_daily_food_budget days pref := by
    unfold mock_data.calculate_daily_food_budget
    split <;> positivity
  have hmisc : (0:ℚ) ≤ mock_data.calculate_misc_costs days := by
    unfold mock_data.calculate_misc_costs
    positivity
  refine ⟨?_, ?_, ?_, ?_⟩
  · simp only [plan_trip_itinerary, if_neg hnp]
    refine ⟨by nlinarith, by nlinarith, ?_⟩
    simp only [decide_eq_false_iff_not, not_le]
    nlinarith
  · simp only [parse_agent_response_itinerary]
    refine ⟨hfood, hmisc, ?_⟩
    simp only [decide_eq_false_iff_not, not_le]
    nlinarith [hfood, hmisc]
  · simp only [plan_trip_stream_itinerary]
    refine ⟨by nlinarith, by nlinarith, ?_⟩
    simp only [decide_eq_true_eq]
    nlinarith
  · simp only [StrandsOrchestrator.calculate_budget_breakdown]
    refine ⟨by nlinarith, by nlinarith, ?_⟩
    simp only [decide_eq_true_eq]
    nlinarith

/-- Witness for the amended C1 at a concrete over-budget request. -/
theorem negative_remaining_modes_amended_witness :
    ((plan_trip_itinerary "Tokyo, Japan" 3 100 1 (some sampleFlight) none []).within_budget
        = false) ∧
    ((plan_trip_stream_itinerary "Tokyo, Japan" 3 100 1
        (some sampleFlight) none []).cost_breakdown.food < 0) := by
  have h := negative_remaining_modes_amended "Tokyo, Japan" 3 100 1 "mid-range"
    (some sampleFlight) none []
    (by norm_num)
    (by norm_num [MultiAgentOrchestrator.flight_cost_of, MultiAgentOrchestrator.hotel_cost_of,
          MultiAgentOrchestrator.activities_cost_of, sampleFlight])
  exact ⟨h.1.2.2, h.2.2.1.1⟩

/-- Claim C2 fails as stated: the tool strategy's budget tool does not fall
back to food = 15 percent of the budget when the remaining budget is
non-positive; at budget 100 and flight cost 200 it returns food = -60. -/
theorem shortfall_fallback_counterexample :
    (100 : ℚ) - (200 + 0 + 0) ≤ 0 ∧
    (StrandsOrchestrator.calculate_budget_breakdown 100 200 0 0).food = -60 ∧
    (100 : ℚ) * 0.15 = 15 ∧
    ¬ (StrandsOrchestrator.calculate_budget_breakdown 100 200 0 0).food = 100 * 0.15 := by
  refine ⟨by norm_num, ?_, by norm_num, ?_⟩ <;>
    simp [StrandsOrchestrator.calculate_budget_breakdown] <;> norm_num

/-- Claim C2 (amended): when the remaining budget is non-positive, the
monolithic strategy keeps its duration-based daily food rate and flat per-day
misc rate, the specialist (non-streaming) `plan_trip` falls back to food = 15
percent and misc = 10 percent of the total budget, while the tool strategy's
budget tool keeps the raw 60/40 split of the (non-positive) remaining
budget. -/
theorem shortfall_policy_by_mode_amended (d : String) (days : ℕ) (B t : ℚ)
    (pref : String) (sf : Option FlightOption) (sh : Option HotelOption)
    (sa : List ActivityOption)
    (hrem : B - (flight_cost_of sf t + hotel_cost_of sh + activities_cost_of sa t) ≤ 0) :
    ((plan_trip_itinerary d days B t sf sh sa).cost_breakdown.food = B * 0.15 ∧
     (plan_trip_itinerary d days B t sf sh sa).cost_breakdown.misc = B * 0.10) ∧
    ((parse_agent_response_itinerary d days B t pref sf sh sa).cost_breakdown.food =
        mock_data.calculate_daily_food_budget days pref ∧
     (parse_agent_response_itinerary d days B t pref sf sh sa).cost_breakdown.misc =
        mock_data.calculate_misc_costs days) ∧
    ((StrandsOrchestrator.calculate_budget_breakdown B (flight_cost_of sf t)
        (hotel_cost_of sh) (activities_cost_of sa t)).food =
        (B - (flight_cost_of sf t + hotel_cost_of sh + activities_cost_of sa t)) * 0.60 ∧
     (StrandsOrchestrator.calculate_budget_breakdown B (flight_cost_of sf t)
        (hotel_cost_of sh) (activities_cost_of sa t)).misc =
        (B - (flight_cost_of sf t + hotel_cost_of sh + activities_cost_of sa t)) * 0.40 ∧
     (StrandsOrchestrator.calculate_budget_breakdown B (flight_cost_of sf t)
        (hotel_cost_of sh) (activities_cost_of sa t)).food ≤ 0 ∧
     (StrandsOrchestrator.calculate_budget_breakdown B (flight_cost_of sf t)
        (hotel_cost_of sh) (activities_cost_of sa t)).misc ≤ 0) := by
  set F := flight_cost_of sf t
  set H := hotel_cost_of sh
  set A := activities_cost_of sa t
  have hnp : ¬ (0 < B - (F + H + A)) := not_lt.mpr hrem
  refine ⟨?_, ?_, ?_⟩
  · simp only [plan_trip_itinerary, if_neg hnp]
    exact ⟨by simp, by simp⟩
  · simp only [parse_agent_response_itinerary]
    exact ⟨by simp, by simp⟩
  · simp only [StrandsOrchestrator.calculate_budget_breakdown]
    refine ⟨by simp, by simp, by nlinarith, by nlinarith⟩

/-- Witness for the amended C2 at a concrete over-budget request. -/
theorem shortfall_policy_by_mode_amended_witness :
    (plan_trip_itinerary "Tokyo, Japan" 3 100 1 (some sampleFlight) none
        []).cost_breakdown.food = 100 * 0.15 ∧
    (StrandsOrchestrator.calculate_budget_breakdown 100
        (flight_cost_of (some sampleFlight) 1) (hotel_cost_of none)
        (activities_cost_of [] 1)).food ≤ 0 := by
  have h := shortfall_policy_by_mode_amended "Tokyo, Japan" 3 100 1 "mid-range"
    (some sampleFlight) none []
    (by norm_num [MultiAgentOrchestrator.flight_cost_of, MultiAgentOrchestrator.hotel_cost_of,
          MultiAgentOrchestrator.activities_cost_of, sampleFlight])
  exact ⟨h.1.1, h.2.2.2.2.1⟩

/-- Helper: `find?` skips a prefix on which the predicate is false. -/
theorem find?_append_none {α : Type} (p : α → Bool) (l₁ l₂ : List α)
    (h : ∀ x ∈ l₁, p x = false) : (l₁ ++ l₂).find? p = l₂.find? p := by
  induction l₁ with
  | nil => rfl
  | cons a l ih =>
    have ha : p a = false := h a (by simp)
    simp only [List.cons_append, List.find?]
    rw [ha]
    exact ih (fun x hx => h x (by simp [hx]))

/-- Claim C4: the single-selection parsers return the first candidate in input
order whose airline or hotel name occurs case-insensitively in the response
text, fall back to the first candidate when none occurs, and return `none` on
an empty candidate list. -/
theorem parse_single_selection_spec (response : String) :
    (∀ (l₁ l₂ : List FlightOption) (f : FlightOption),
       substrOf (lowerStr f.airline) (lowerStr response) = true →
       (∀ g ∈ l₁, substrOf (lowerStr g.airline) (lowerStr response) = false) →
       parse_flight_from_response response (l₁ ++ f :: l₂) = some f) ∧
    (∀ fl : List FlightOption,
       (∀ g ∈ fl, substrOf (lowerStr g.airline) (lowerStr response) = false) →
       parse_flight_from_response response fl = fl.head?) ∧
    parse_flight_from_response response [] = none ∧
    (∀ (m₁ m₂ : List HotelOption) (h : HotelOption),
       substrOf (lowerStr h.name) (lowerStr response) = true →
       (∀ g ∈ m₁, substrOf (lowerStr g.name) (lowerStr response) = false) →
       parse_hotel_from_response response (m₁ ++ h :: m₂) = some h) ∧
    (∀ hl : List HotelOption,
       (∀ g ∈ hl, substrOf (lowerStr g.name) (lowerStr response) = false) →
       parse_hotel_from_response response hl = hl.head?) ∧
    parse_hotel_from_response response [] = none := by
  refine ⟨?_, ?_, rfl, ?_, ?_, rfl⟩
  · intro l₁ l₂ f hf hl
    have hfind : List.find?
        (fun flight => substrOf (lowerStr flight.airline) (lowerStr response)) (l₁ ++ f :: l₂) =
        some f := by
      rw [find?_append_none _ l₁ _ hl]
      exact List.find?_cons_of_pos _ hf
    simp [parse_flight_from_response, hfind]
  · intro fl hall
    have hfind : List.find?
        (fun flight => substrOf (lowerStr flight.airline) (lowerStr response)) fl = none :=
      List.find?_eq_none.mpr (fun x hx => by simp [hall x hx])
    simp [parse_flight_from_response, hfind]
  · intro m₁ m₂ h hf hl
    have hfind : List.find?
        (fun hotel => substrOf (lowerStr hotel.name) (lowerStr response)) (m₁ ++ h :: m₂) =
        some h := by
      rw [find?_append_none _ m₁ _ hl]
      exact List.find?_cons_of_pos _ hf
    simp [parse_hotel_from_response, hfind]
  · intro hl hall
    have hfind : List.find?
        (fun hotel => substrOf (lowerStr hotel.name) (lowerStr response)) hl = none :=
      List.find?_eq_none.mpr (fun x hx => by simp [hall x hx])
    simp [parse_hotel_from_response, hfind]

/-- Witness for C4: a response naming ANA selects the second catalog flight,
not the first. -/
theorem parse_single_selection_spec_witness :
    parse_flight_from_response "I recommend ANA for the best balance."
        ([mock_data.tokyo_flights.get ⟨0, by norm_num [mock_data.tokyo_flights]⟩] ++
          mock_data.tokyo_flights.get ⟨1, by norm_num [mock_data.tokyo_flights]⟩ ::
          [mock_data.tokyo_flights.get ⟨2, by norm_num [mock_data.tokyo_flights]⟩,
           mock_data.tokyo_flights.get ⟨3, by norm_num [mock_data.tokyo_flights]⟩]) =
      some (mock_data.tokyo_flights.get ⟨1, by norm_num [mock_data.tokyo_flights]⟩) :=
  (parse_single_selection_spec "I recommend ANA for the best balance.").1
    _ _ _ (by decide) (by decide)

/-- Claim C5: the multi-selection parser keeps, in input order, the candidates
whose names occur case-insensitively in the response, capped at six; when no
candidate matches, it returns the first six candidates unfiltered, so an empty
candidate list yields an empty result. -/
theorem parse_multi_selection_spec (response : String) (activities : List ActivityOption) :
    ((∃ a ∈ activities, substrOf (lowerStr a.name) (lowerStr response) = true) →
       parse_activities_from_response response activities =
         (activities.filter
             (fun a => substrOf (lowerStr a.name) (lowerStr response))).take 6) ∧
    ((∀ a ∈ activities, substrOf (lowerStr a.name) (lowerStr response) = false) →
       parse_activities_from_response response activities = activities.take 6) ∧
    parse_activities_from_response response [] = [] ∧
    (parse_activities_from_response response activities).length ≤ 6 := by
  refine ⟨?_, ?_, rfl, ?_⟩
  · intro ⟨a, ha, hpa⟩
    have hne : activities.filter
        (fun a => substrOf (lowerStr a.name) (lowerStr response)) ≠ [] := by
      intro hnil
      have := List.filter_eq_nil_iff.mp hnil a ha
      simp [hpa] at this
    have htake : (activities.filter
        (fun a => substrOf (lowerStr a.name) (lowerStr response))).take 6 ≠ [] := by
      simpa [List.take_eq_nil_iff] using hne
    simp [parse_activities_from_response, List.isEmpty_iff, htake]
  · intro hall
    have hnil : activities.filter
        (fun a => substrOf (lowerStr a.name) (lowerStr response)) = [] :=
      List.filter_eq_nil_iff.mpr (fun a ha => by simp [hall a ha])
    simp [parse_activities_from_response, hnil]
  · by_cases hsel : (activities.filter
        (fun a => substrOf (lowerStr a.name) (lowerStr response))).take 6 = []
    · simp [parse_activities_from_response, List.isEmpty_iff, hsel, List.length_take]
    · simp [parse_activities_from_response, List.isEmpty_iff, hsel, List.length_take]

/-- Witness for C5 at a concrete matching response. -/
theorem parse_multi_selection_spec_witness :
    parse_activities_from_response "Do the Senso-ji Temple Visit first."
        (mock_data.get_activities "Tokyo, Japan" ["temples"] 10) =
      ((mock_data.get_activities "Tokyo, Japan" ["temples"] 10).filter
          (fun a => substrOf (lowerStr a.name)
            (lowerStr "Do the Senso-ji Temple Visit first."))).take 6 :=
  (parse_multi_selection_spec "Do the Senso-ji Temple Visit first."
      (mock_data.get_activities "Tokyo, Japan" ["temples"] 10)).1 (by decide)

/-- Helper: `takeWhile` ignores everything from the first failing element on. -/
theorem takeWhile_append_of_neg {α : Type} (p : α → Bool) (l l' : List α) (x : α)
    (hx : p x = false) : (l ++ x :: l').takeWhile p = l.takeWhile p := by
  induction l with
  | nil => simp [List.takeWhile, hx]
  | cons a t ih =>
    simp only [List.cons_append, List.takeWhile_cons, ih]

/-- Claim C7: catalog lookups key on the lower-cased text before the first
comma of the destination (appending a comma and any suffix never changes the
key, and the spec example maps to its key), and any destination whose key is
not in the catalog resolves to the default tokyo data in all three lookups
instead of raising. -/
theorem catalog_key_and_fallback_spec (d : String) :
    (destKey d ∉ (["tokyo", "paris", "london"] : List String) →
      (∀ p, mock_data.get_flights d p = mock_data.get_flights "tokyo" p) ∧
      (∀ n p, mock_data.get_hotels d n p = mock_data.get_hotels "tokyo" n p) ∧
      (∀ ints m,
        mock_data.get_activities d ints m = mock_data.get_activities "tokyo" ints m)) ∧
    (∀ e : String, destKey (d ++ "," ++ e) = destKey d) ∧
    destKey "Tokyo, Japan" = "tokyo" := by
  refine ⟨?_, ?_, by decide⟩
  · intro hd
    simp only [List.mem_cons, List.mem_singleton, not_or] at hd
    obtain ⟨h1, h2, h3, -⟩ := hd
    have b1 : (("tokyo" : String) == destKey d) = false :=
      beq_eq_false_iff_ne.mpr (fun h => h1 h.symm)
    have b2 : (("paris" : String) == destKey d) = false :=
      beq_eq_false_iff_ne.mpr (fun h => h2 h.symm)
    have b3 : (("london" : String) == destKey d) = false :=
      beq_eq_false_iff_ne.mpr (fun h => h3 h.symm)
    have hf : dictGetD mock_data.MOCK_FLIGHTS (destKey d) mock_data.tokyo_flights =
        mock_data.tokyo_flights := by
      simp [dictGetD, mock_data.MOCK_FLIGHTS, List.find?, b1, b2, b3]
    have hh : dictGetD mock_data.MOCK_HOTELS (destKey d) mock_data.tokyo_hotels =
        mock_data.tokyo_hotels := by
      simp [dictGetD, mock_data.MOCK_HOTELS, List.find?, b1, b2, b3]
    have ha : dictGetD mock_data.MOCK_ACTIVITIES (destKey d) mock_data.tokyo_activities =
        mock_data.tokyo_activities := by
      simp [dictGetD, mock_data.MOCK_ACTIVITIES, List.find?, b1, b2, b3]
    have hft : dictGetD mock_data.MOCK_FLIGHTS (destKey "tokyo") mock_data.tokyo_flights =
        mock_data.tokyo_flights := rfl
    have hht : dictGetD mock_data.MOCK_HOTELS (destKey "tokyo") mock_data.tokyo_hotels =
        mock_data.tokyo_hotels := rfl
    have hat : dictGetD mock_data.MOCK_ACTIVITIES (destKey "tokyo")
        mock_data.tokyo_activities = mock_data.tokyo_activities := rfl
    refine ⟨fun p => ?_, fun n p => ?_, fun ints m => ?_⟩
    · simp only [mock_data.get_flights, hf, hft]
    · simp only [mock_data.get_hotels, hh, hht]
    · simp only [mock_data.get_activities, ha, hat]
  · intro e
    show (⟨stripL (((lowerStr (d ++ "," ++ e)).data).takeWhile
        (fun c => !(c == ',')))⟩ : String) = _
    have hdata : (lowerStr (d ++ "," ++ e)).data =
        (lowerStr d).data ++ (',' : Char) :: (lowerStr e).data := by
      simp [lowerStr, String.data_append]
    rw [destKey, hdata, takeWhile_append_of_neg _ _ _ _ (by decide)]

/-- Witness for C7: an unknown destination resolves to the tokyo flight data. -/
theorem catalog_key_and_fallback_spec_witness :
    mock_data.get_flights "Nowhereville" "mid-range" =
      mock_data.get_flights "tokyo" "mid-range" :=
  ((catalog_key_and_fallback_spec "Nowhereville").1 (by decide)).1 "mid-range"

/-- Claim C9: the payment mandate is authorized exactly when the cart total is
at most the mock wallet balance; a denial ends the stream with a single
terminal error event and leaves the balance unchanged (the transaction step
never runs), while an authorization debits the balance and ends with the
result event. -/
theorem ap2_authorization_denial_spec (budget balance : ℚ) :
    (request_payment_authorization (build_cart_total budget) balance =
        MandateStatus.authorized ↔ build_cart_total budget ≤ balance) ∧
    (¬ build_cart_total budget ≤ balance →
      (plan_trip_with_ap2_stream budget balance).1 =
        [EventKind.log, EventKind.log, EventKind.log, EventKind.log, EventKind.error] ∧
      (plan_trip_with_ap2_stream budget balance).1.count EventKind.error = 1 ∧
      (plan_trip_with_ap2_stream budget balance).1.getLast? = some EventKind.error ∧
      EventKind.result ∉ (plan_trip_with_ap2_stream budget balance).1 ∧
      (plan_trip_with_ap2_stream budget balance).2 = balance) ∧
    (build_cart_total budget ≤ balance →
      (plan_trip_with_ap2_stream budget balance).2 = balance - build_cart_total budget ∧
      (plan_trip_with_ap2_stream budget balance).1.getLast? = some EventKind.result) := by
  refine ⟨?_, ?_, ?_⟩
  · by_cases h : build_cart_total budget ≤ balance <;>
      simp [request_payment_authorization, h]
  · intro h
    have hs : plan_trip_with_ap2_stream budget balance =
        ([EventKind.log, EventKind.log, EventKind.log, EventKind.log, EventKind.error],
          balance) := by
      simp [plan_trip_with_ap2_stream, request_payment_authorization, if_neg h]
    refine ⟨by simp [hs], by simp [hs, List.count_cons], by simp [hs],
      by simp [hs], by simp [hs]⟩
  · intro h
    have hs : plan_trip_with_ap2_stream budget balance =
        ([EventKind.log, EventKind.log, EventKind.log, EventKind.log,
           EventKind.log, EventKind.log, EventKind.result],
          balance - build_cart_total budget) := by
      simp [plan_trip_with_ap2_stream, request_payment_authorization, if_pos h]
    exact ⟨by simp [hs], by simp [hs]⟩

/-- Witness for C9: a 10000 budget against a 100 balance is denied, the stream
ends in one error event, and the wallet is untouched. -/
theorem ap2_authorization_denial_spec_witness :
    (plan_trip_with_ap2_stream 10000 100).1.getLast? = some EventKind.error ∧
    (plan_trip_with_ap2_stream 10000 100).2 = 100 := by
  have h := (ap2_authorization_denial_spec 10000 100).2.1
    (by norm_num [AP2Orchestrator.build_cart_total])
  exact ⟨h.2.2.1, h.2.2.2.2⟩

/-- Claim C8 fails as stated: in the single-agent strategy, a budget overrun is
reported in the `errors` list and by itself forces a failure status, as shown
by a concrete over-budget plan whose only issue is the overrun. -/
theorem overrun_as_error_counterexample :
    (SingleTravelAgent.parse_agent_response_itinerary "Tokyo, Japan" 3 100 1 "mid-range"
        (some sampleFlight) (some sampleHotel) [sampleActivity]).actual_cost >
      (SingleTravelAgent.parse_agent_response_itinerary "Tokyo, Japan" 3 100 1 "mid-range"
        (some sampleFlight) (some sampleHotel) [sampleActivity]).total_budget ∧
    (plan_trip_outcome (SingleTravelAgent.parse_agent_response_itinerary "Tokyo, Japan" 3 100 1
        "mid-range" (some sampleFlight) (some sampleHotel) [sampleActivity])).errors =
      [Issue.budget_exceeded] ∧
    (plan_trip_outcome (SingleTravelAgent.parse_agent_response_itinerary "Tokyo, Japan" 3 100 1
        "mid-range" (some sampleFlight) (some sampleHotel) [sampleActivity])).status =
      AgentStatus.failure := by
  have hcost : (SingleTravelAgent.parse_agent_response_itinerary "Tokyo, Japan" 3 100 1
      "mid-range" (some sampleFlight) (some sampleHotel) [sampleActivity]).actual_cost = 765 := by
    simp [SingleTravelAgent.parse_agent_response_itinerary,
      MultiAgentOrchestrator.flight_cost_of, MultiAgentOrchestrator.hotel_cost_of,
      MultiAgentOrchestrator.activities_cost_of, mock_data.calculate_daily_food_budget,
      mock_data.calculate_misc_costs, sampleFlight, sampleHotel, sampleActivity]
    norm_num
  have hgt : (SingleTravelAgent.parse_agent_response_itinerary "Tokyo, Japan" 3 100 1
      "mid-range" (some sampleFlight) (some sampleHotel) [sampleActivity]).actual_cost >
      (SingleTravelAgent.parse_agent_response_itinerary "Tokyo, Japan" 3 100 1
      "mid-range" (some sampleFlight) (some sampleHotel) [sampleActivity]).total_budget := by
    rw [hcost]
    norm_num [SingleTravelAgent.parse_agent_response_itinerary]
  refine ⟨hgt, ?_, ?_⟩
  · simp [plan_trip_outcome, decide_eq_true hgt,
      SingleTravelAgent.parse_agent_response_itinerary]
    norm_num [MultiAgentOrchestrator.flight_cost_of, MultiAgentOrchestrator.hotel_cost_of,
      MultiAgentOrchestrator.activities_cost_of, mock_data.calculate_daily_food_budget,
      mock_data.calculate_misc_costs, sampleFlight, sampleHotel, sampleActivity]
    rw [if_neg (show ¬ ("mid-range" : String) = "budget" by decide)]
    norm_num
  · simp [plan_trip_outcome, decide_eq_true hgt,
      SingleTravelAgent.parse_agent_response_itinerary]
    norm_num [MultiAgentOrchestrator.flight_cost_of, MultiAgentOrchestrator.hotel_cost_of,
      MultiAgentOrchestrator.activities_cost_of, mock_data.calculate_daily_food_budget,
      mock_data.calculate_misc_costs, sampleFlight, sampleHotel, sampleActivity]
    rw [if_neg (show ¬ ("mid-range" : String) = "budget" by decide)]
    norm_num

/-- Claim C8 (amended): in the specialist strategy an overrun is surfaced only
as `within_budget = false` on the itinerary, but in the single-agent strategy
any overrun lands in the errors list and forces the failure status. -/
theorem overrun_surfacing_amended :
    (∀ itin : TravelItinerary, itin.actual_cost > itin.total_budget →
      Issue.budget_exceeded ∈ (plan_trip_outcome itin).errors ∧
      (plan_trip_outcome itin).status = AgentStatus.failure) ∧
    (∀ (d : String) (days : ℕ) (B t : ℚ) sf sh sa,
      ((plan_trip_itinerary d days B t sf sh sa).within_budget = false ↔
        B < (plan_trip_itinerary d days B t sf sh sa).actual_cost)) := by
  constructor
  · intro itin h
    have hdec : decide (itin.actual_cost > itin.total_budget) = true := decide_eq_true h
    constructor
    · simp [plan_trip_outcome, hdec]
    · simp only [plan_trip_outcome, hdec]
      simp
  · intro d days B t sf sh sa
    simp [plan_trip_itinerary, not_le]

/-- Witness for the amended C8 at an explicit over-budget itinerary. -/
theorem overrun_surfacing_amended_witness :
    Issue.budget_exceeded ∈
      (plan_trip_outcome
        { destination := "Tokyo, Japan", duration_days := 3, total_budget := 100,
          actual_cost := 200, within_budget := false, flights := some sampleFlight,
          hotel := some sampleHotel, activities := [sampleActivity],
          cost_breakdown :=
            { flights := 0, accommodation := 0, activities := 0, food := 0,
              misc := 0 } }).errors :=
  (overrun_surfacing_amended.1
    { destination := "Tokyo, Japan", duration_days := 3, total_budget := 100,
      actual_cost := 200, within_budget := false, flights := some sampleFlight,
      hotel := some sampleHotel, activities := [sampleActivity],
      cost_breakdown :=
        { flights := 0, accommodation := 0, activities := 0, food := 0, misc := 0 } }
    (by norm_num)).1

/-- Helper: any element of the first two of a sorted list has fewer than two
strictly smaller elements in the original list. -/
theorem take_two_least {α : Type} (r : α → α → Prop) [DecidableRel r]
    [IsTotal α r] [IsTrans α r] (l : List α) :
    ∀ x ∈ (List.insertionSort r l).take 2,
      (l.filter (fun y => decide (¬ r x y))).length < 2 := by
  intro x hx
  have hsorted : List.Sorted r (List.insertionSort r l) := List.sorted_insertionSort r l
  have hperm : l.Perm (List.insertionSort r l) := (List.perm_insertionSort r l).symm
  rw [List.Perm.length_eq (hperm.filter _)]
  revert hx hsorted
  generalize List.insertionSort r l = s
  intro hx hsorted
  have hrefl : ∀ a : α, r a a := fun a => (IsTotal.total a a).elim id id
  simp only [decide_not]
  cases s with
  | nil => simp at hx
  | cons a t =>
    cases t with
    | nil =>
      simp at hx
      subst hx
      have hnil : List.filter (fun y => !decide (r x y)) [x] = [] := by
        refine List.filter_eq_nil_iff.mpr ?_
        intro y hy
        rcases List.mem_singleton.mp hy with rfl
        simp [hrefl y]
      rw [hnil]
      norm_num
    | cons b u =>
      have ha1 : ∀ y ∈ b :: u, r a y := (List.sorted_cons.mp hsorted).1
      have hsb : List.Sorted r (b :: u) := (List.sorted_cons.mp hsorted).2
      have hb1 : ∀ y ∈ u, r b y := (List.sorted_cons.mp hsb).1
      simp [List.take] at hx
      rcases hx with rfl | rfl
      · have hnil : List.filter (fun y => !decide (r x y)) (x :: b :: u) = [] := by
          refine List.filter_eq_nil_iff.mpr ?_
          intro y hy
          rcases List.mem_cons.mp hy with rfl | hy2
          · simp [hrefl y]
          · simp [ha1 y hy2]
        rw [hnil]
        norm_num
      · have htail : List.filter (fun y => !decide (r x y)) (x :: u) = [] := by
          refine List.filter_eq_nil_iff.mpr ?_
          intro y hy
          rcases List.mem_cons.mp hy with rfl | hy2
          · simp [hrefl y]
          · simp [hb1 y hy2]
        have hsplit : a :: x :: u = [a] ++ x :: u := rfl
        rw [hsplit, List.filter_append, htail, List.append_nil]
        exact lt_of_le_of_lt (List.length_filter_le _ [a]) (by norm_num)

/-- Claim C6 fails as stated for flights: with the default mid-range
preference, `get_flights` returns the full catalog list in stored (unsorted)
order, which is not any contiguous slice of the price-sorted list. -/
theorem flights_default_slice_counterexample :
    ¬ ∃ i k : ℕ, mock_data.get_flights "Tokyo, Japan" "mid-range" =
      ((mock_data.sortedByKey (fun f => f.price) mock_data.tokyo_flights).drop i).take k := by
  rintro ⟨i, k, h⟩
  have hsorted : List.Pairwise (fun a b : FlightOption => a.price ≤ b.price)
      (mock_data.sortedByKey (fun f => f.price) mock_data.tokyo_flights) := by decide
  have hsub : (((mock_data.sortedByKey (fun f => f.price)
        mock_data.tokyo_flights).drop i).take k).Sublist
      (mock_data.sortedByKey (fun f => f.price) mock_data.tokyo_flights) :=
    (List.take_sublist _ _).trans (List.drop_sublist _ _)
  have hp : List.Pairwise (fun a b : FlightOption => a.price ≤ b.price)
      (mock_data.get_flights "Tokyo, Japan" "mid-range") := by
    rw [h]
    exact hsorted.sublist hsub
  exact absurd hp (by decide)

/-- Claim C6 (amended): for every destination, preference `budget` returns the
two cheapest items (first two of the price-sorted list, each with fewer than
two strictly cheaper catalog items) and `luxury` the two most expensive, for
flights and hotels alike; with any other preference (the `mid-range` default),
hotels return the fixed middle slice `[1:3]` of the price-sorted list but
flights return the full catalog list unchanged. -/
theorem catalog_preference_amended (d p : String) (n : ℕ) :
    (mock_data.get_flights d "budget" =
        (mock_data.sortedByKey (fun f => f.price) (mock_data.flights_db d)).take 2 ∧
     ∀ x ∈ mock_data.get_flights d "budget",
       ((mock_data.flights_db d).filter (fun y => y.price < x.price)).length < 2) ∧
    (mock_data.get_flights d "luxury" =
        (mock_data.sortedByKeyRev (fun f => f.price) (mock_data.flights_db d)).take 2 ∧
     ∀ x ∈ mock_data.get_flights d "luxury",
       ((mock_data.flights_db d).filter (fun y => x.price < y.price)).length < 2) ∧
    (p ≠ "budget" → p ≠ "luxury" → mock_data.get_flights d p = mock_data.flights_db d) ∧
    (mock_data.get_hotels d n "budget" =
        (mock_data.sortedByKey (fun h => h.price_per_night)
          (mock_data.hotels_db d n)).take 2 ∧
     ∀ x ∈ mock_data.get_hotels d n "budget",
       ((mock_data.hotels_db d n).filter
           (fun y => y.price_per_night < x.price_per_night)).length < 2) ∧
    (mock_data.get_hotels d n "luxury" =
        (mock_data.sortedByKeyRev (fun h => h.price_per_night)
          (mock_data.hotels_db d n)).take 2 ∧
     ∀ x ∈ mock_data.get_hotels d n "luxury",
       ((mock_data.hotels_db d n).filter
           (fun y => x.price_per_night < y.price_per_night)).length < 2) ∧
    (p ≠ "budget" → p ≠ "luxury" → mock_data.get_hotels d n p =
        ((mock_data.sortedByKey (fun h => h.price_per_night)
          (mock_data.hotels_db d n)).drop 1).take 2) := by
  haveI i1 : IsTotal FlightOption (fun a b => a.price ≤ b.price) := ⟨fun a b => le_total _ _⟩
  haveI i2 : IsTrans FlightOption (fun a b => a.price ≤ b.price) :=
    ⟨fun _ _ _ hab hbc => le_trans hab hbc⟩
  haveI i3 : IsTotal FlightOption (fun a b => b.price ≤ a.price) := ⟨fun a b => le_total _ _⟩
  haveI i4 : IsTrans FlightOption (fun a b => b.price ≤ a.price) :=
    ⟨fun _ _ _ hab hbc => le_trans hbc hab⟩
  haveI i5 : IsTotal HotelOption (fun a b => a.price_per_night ≤ b.price_per_night) :=
    ⟨fun a b => le_total _ _⟩
  haveI i6 : IsTrans HotelOption (fun a b => a.price_per_night ≤ b.price_per_night) :=
    ⟨fun _ _ _ hab hbc => le_trans hab hbc⟩
  haveI i7 : IsTotal HotelOption (fun a b => b.price_per_night ≤ a.price_per_night) :=
    ⟨fun a b => le_total _ _⟩
  haveI i8 : IsTrans HotelOption (fun a b => b.price_per_night ≤ a.price_per_night) :=
    ⟨fun _ _ _ hab hbc => le_trans hbc hab⟩
  refine ⟨⟨rfl, ?_⟩, ⟨rfl, ?_⟩, ?_, ⟨rfl, ?_⟩, ⟨rfl, ?_⟩, ?_⟩
  · intro x hx
    have h := take_two_least (fun a b : FlightOption => a.price ≤ b.price)
      (mock_data.flights_db d) x hx
    rwa [List.filter_congr (fun y _ => decide_eq_decide.mpr not_le)] at h
  · intro x hx
    have h := take_two_least (fun a b : FlightOption => b.price ≤ a.price)
      (mock_data.flights_db d) x hx
    rwa [List.filter_congr (fun y _ => decide_eq_decide.mpr not_le)] at h
  · intro h1 h2
    have e1 : (p == "budget") = false := beq_eq_false_iff_ne.mpr h1
    have e2 : (p == "luxury") = false := beq_eq_false_iff_ne.mpr h2
    simp [mock_data.get_flights, mock_data.flights_db, e1, e2]
  · intro x hx
    have h := take_two_least (fun a b : HotelOption => a.price_per_night ≤ b.price_per_night)
      (mock_data.hotels_db d n) x hx
    rwa [List.filter_congr (fun y _ => decide_eq_decide.mpr not_le)] at h
  · intro x hx
    have h := take_two_least (fun a b : HotelOption => b.price_per_night ≤ a.price_per_night)
      (mock_data.hotels_db d n) x hx
    rwa [List.filter_congr (fun y _ => decide_eq_decide.mpr not_le)] at h
  · intro h1 h2
    have e1 : (p == "budget") = false := beq_eq_false_iff_ne.mpr h1
    have e2 : (p == "luxury") = false := beq_eq_false_iff_ne.mpr h2
    simp [mock_data.get_hotels, mock_data.hotels_db, mock_data.sortedByKey, e1, e2]

/-- Witness for the amended C6: the mid-range default returns the full flight
catalog list. -/
theorem catalog_preference_amended_witness :
    mock_data.get_flights "Tokyo, Japan" "mid-range" = mock_data.flights_db "Tokyo, Japan" :=
  (catalog_preference_amended "Tokyo, Japan" "mid-range" 5).2.2.1 (by decide) (by decide)
